import Mathlib

/-!
Verification of the OrthoAI voice worker scripts
(`scripts/voice/whisper_worker.py`, `scripts/voice/piper_worker.py`).

The two workers are long-lived subprocesses speaking line-delimited JSON on
standard streams.  We embed the pure logic of the two scripts shallowly:

* JSON values are modelled by an inductive `Json` (numbers as exact rationals:
  the Python floats are modelled by real-valued arithmetic over `ℚ`);
* calls into external libraries (`json.loads`, `base64`, the `wave` module
  header parsing, the whisper/piper models, `math.exp`, `time.perf_counter`)
  are modelled as oracle fields of an environment structure, while every line
  of repository code (validation, envelope construction, WAV sample
  conversion, resampling, confidence scoring) is translated directly;
* the stdin read loop becomes a pure function from the list of input lines to
  the list of emitted JSON lines.
-/

namespace OrthoAI

/-- Model of a Python/JSON value as produced by `json.loads` and consumed by
`json.dumps`.  Objects are ordered key/value lists (Python dicts preserve
insertion order, which `json.dumps` reproduces). -/
inductive Json where
  | null : Json
  | bool : Bool → Json
  | num : ℚ → Json
  | str : String → Json
  | arr : List Json → Json
  | obj : List (String × Json) → Json

/-- Characters stripped by Python `str.strip()` (ASCII whitespace). -/
def isPySpace (c : Char) : Bool :=
  c = ' ' || c = '\t' || c = '\n' || c = '\r' || c = '\x0b' || c = '\x0c'

/-- Python `str.strip()`: drop whitespace from both ends. -/
def pystrip (s : String) : String :=
  String.mk (((s.data.dropWhile isPySpace).reverse.dropWhile isPySpace).reverse)

/-- First-occurrence lookup in an association list (dict keys are unique). -/
def lookupKV (kvs : List (String × Json)) (k : String) : Option Json :=
  match kvs with
  | [] => none
  | (k', v) :: rest => if k' = k then some v else lookupKV rest k

/-- Lookup of a key in a JSON value; `none` when the value is not an object
or the key is missing. -/
def jLookup (j : Json) (k : String) : Option Json :=
  match j with
  | .obj kvs => lookupKV kvs k
  | _ => none

/-- Python `payload.get(k, default)` on a dict. -/
def jGetDefault (j : Json) (k : String) (d : Json) : Json :=
  (jLookup j k).getD d

/-- Python `payload.get(k)` on a dict: missing keys give `None`. -/
def jGetD (j : Json) (k : String) : Json :=
  jGetDefault j k Json.null

/-- Key order of an emitted JSON object. -/
def jKeys (j : Json) : List String :=
  match j with
  | .obj kvs => kvs.map Prod.fst
  | _ => []

/-- Whether the value is a JSON object (a Python dict). -/
def Json.isObj : Json → Bool
  | .obj _ => true
  | _ => false

/-- Python `value == "s"` for a string literal `s`: only a string with the
same contents compares equal. -/
def jStrEq (j : Json) (s : String) : Bool :=
  match j with
  | .str t => t = s
  | _ => false

/-- Python truthiness of a JSON value (`if value:`). -/
def pyTruthy : Json → Bool
  | .null => false
  | .bool b => b
  | .num q => q ≠ 0
  | .str s => s ≠ ""
  | .arr xs => !xs.isEmpty
  | .obj kvs => !kvs.isEmpty

/-- Python `str(value)` rendering, modelled exactly for the scalar values the
workers format into messages; list/dict renderings are opaque placeholders
(no claim inspects them). -/
def pyStr : Json → String
  | .null => "None"
  | .bool true => "True"
  | .bool false => "False"
  | .num q => toString q
  | .str s => s
  | .arr _ => "[list]"
  | .obj _ => "[dict]"

/-- Python name of the type of a JSON value, used in the `AttributeError`
message raised when `.get` is called on a non-dict. -/
def pyTypeName : Json → String
  | .null => "NoneType"
  | .bool _ => "bool"
  | .num _ => "float"
  | .str _ => "str"
  | .arr _ => "list"
  | .obj _ => "dict"

/-- Message of the `AttributeError` raised by `payload.get(...)` when
`json.loads` returned a non-dict value. -/
def attrErrMsg (j : Json) : String :=
  "\x27" ++ pyTypeName j ++ "\x27 object has no attribute \x27get\x27"

/-!
## Audio container codec (`whisper_worker.wav_bytes_to_float32`, lines 26-45)

The `wave` standard-library module parses the RIFF container; its output
(header fields plus the raw little-endian frame bytes) is modelled by
`WavHeader`.  Everything below the `wave.open` call — the per-bit-depth
conversion to float samples and the multi-channel average — is repository
code and is translated directly.
-/

/-- Result of the `wave.open` header parse: sample rate, channel count,
bytes per sample, and the raw frame bytes (each a value in `0..255`). -/
structure WavHeader where
  sampleRate : ℕ
  channels : ℕ
  sampleWidth : ℕ
  frames : List ℕ

/-- Signed 16-bit little-endian value of two bytes, as read by
`np.frombuffer(..., dtype=np.int16)`. -/
def toInt16 (lo hi : ℕ) : ℤ :=
  let v : ℤ := lo + 256 * hi
  if v < 32768 then v else v - 65536

/-- Signed 32-bit little-endian value of four bytes, as read by
`np.frombuffer(..., dtype=np.int32)`. -/
def toInt32 (b0 b1 b2 b3 : ℕ) : ℤ :=
  let v : ℤ := b0 + 256 * b1 + 65536 * b2 + 16777216 * b3
  if v < 2147483648 then v else v - 4294967296

/-- Reinterpret a byte buffer as consecutive little-endian `int16` values. -/
def bytesToInt16LE : List ℕ → List ℤ
  | b0 :: b1 :: rest => toInt16 b0 b1 :: bytesToInt16LE rest
  | _ => []

/-- Reinterpret a byte buffer as consecutive little-endian `int32` values. -/
def bytesToInt32LE : List ℕ → List ℤ
  | b0 :: b1 :: b2 :: b3 :: rest => toInt32 b0 b1 b2 b3 :: bytesToInt32LE rest
  | _ => []

/-- Model of `audio.reshape(-1, ch).mean(axis=1)`: average each consecutive block of
`ch` interleaved samples into one mono sample. -/
def meanChunks (ch : ℕ) (xs : List ℚ) : List ℚ :=
  if h : ch = 0 ∨ xs = [] then []
  else ((xs.take ch).sum / ch) :: meanChunks ch (xs.drop ch)
termination_by xs.length
decreasing_by
  push_neg at h
  cases xs with
  | nil => exact absurd rfl h.2
  | cons a l =>
    simp only [List.drop, List.length_cons]
    cases ch with
    | zero => exact absurd rfl h.1
    | succ n => simpa using Nat.sub_lt (Nat.succ_pos _) (Nat.succ_pos _)

/-- The channel-collapse step of `wav_bytes_to_float32` (line 42-43):
`if channels > 1: audio = audio.reshape(-1, channels).mean(axis=1)`.
`np.reshape` raises when the buffer size is not a multiple of the channel
count; that raise is modelled by the error branch. -/
def mixToMono (channels : ℕ) (audio : List ℚ) : Except String (List ℚ) :=
  if channels > 1 then
    if audio.length % channels = 0 then .ok (meanChunks channels audio)
    else .error "cannot reshape array"
  else .ok audio

/-- Translation of `wav_bytes_to_float32` (lines 26-45), after the `wave.open` parse that is
carried by the `WavHeader` argument.  The three supported bit depths
convert exactly as in the source; any other width raises
`ValueError("Unsupported WAV sample width: ...")`.  The divisibility error
branches model the `ValueError` that `np.frombuffer` raises when the byte
count is not a multiple of the element size. -/
def wav_bytes_to_float32 (w : WavHeader) : Except String (List ℚ × ℕ) :=
  if w.sampleWidth = 1 then
    match mixToMono w.channels (w.frames.map (fun b : ℕ => ((b : ℚ) - 128) / 128)) with
    | .error e => .error e
    | .ok audio => .ok (audio, w.sampleRate)
  else if w.sampleWidth = 2 then
    if w.frames.length % 2 = 0 then
      match mixToMono w.channels ((bytesToInt16LE w.frames).map (fun v : ℤ => (v : ℚ) / 32768)) with
      | .error e => .error e
      | .ok audio => .ok (audio, w.sampleRate)
    else .error "buffer size must be a multiple of element size"
  else if w.sampleWidth = 4 then
    if w.frames.length % 4 = 0 then
      match mixToMono w.channels ((bytesToInt32LE w.frames).map (fun v : ℤ => (v : ℚ) / 2147483648)) with
      | .error e => .error e
      | .ok audio => .ok (audio, w.sampleRate)
    else .error "buffer size must be a multiple of element size"
  else .error ("Unsupported WAV sample width: " ++ toString w.sampleWidth)

theorem bytesToInt16LE_length (bs : List ℕ) : (bytesToInt16LE bs).length = bs.length / 2 := by
  induction bs using bytesToInt16LE.induct with
  | case1 b0 b1 rest ih => simp [bytesToInt16LE, ih]; omega
  | case2 bs h =>
    cases bs with
    | nil => simp [bytesToInt16LE]
    | cons a l =>
      cases l with
      | nil => simp [bytesToInt16LE]
      | cons b r => exact absurd rfl (h a b r)

theorem bytesToInt32LE_length (bs : List ℕ) : (bytesToInt32LE bs).length = bs.length / 4 := by
  induction bs using bytesToInt32LE.induct with
  | case1 b0 b1 b2 b3 rest ih => simp [bytesToInt32LE, ih]; omega
  | case2 bs h =>
    match bs, h with
    | [], _ => simp [bytesToInt32LE]
    | [a], _ => simp [bytesToInt32LE]
    | [a, b], _ => simp [bytesToInt32LE]
    | [a, b, c], _ => simp [bytesToInt32LE]
    | a :: b :: c :: d :: r, h => exact absurd rfl (h a b c d r)

theorem bytesToInt16LE_get (i : ℕ) : ∀ bs : List ℕ, 2 * i + 1 < bs.length →
    (bytesToInt16LE bs)[i]? = some (toInt16 (bs.getD (2 * i) 0) (bs.getD (2 * i + 1) 0)) := by
  induction i with
  | zero =>
    intro bs h
    match bs with
    | [] => simp at h
    | [b] => simp at h
    | b0 :: b1 :: rest => simp [bytesToInt16LE]
  | succ i ih =>
    intro bs h
    match bs with
    | [] => simp at h
    | [b] => simp at h
    | b0 :: b1 :: rest =>
      have hr : 2 * i + 1 < rest.length := by
        simp only [List.length_cons] at h; omega
      show (toInt16 b0 b1 :: bytesToInt16LE rest)[i + 1]? = _
      rw [List.getElem?_cons_succ, ih rest hr]
      have h1 : 2 * (i + 1) = (2 * i + 1) + 1 := by ring
      rw [h1]
      simp [List.getD_cons_succ]

theorem bytesToInt32LE_get (i : ℕ) : ∀ bs : List ℕ, 4 * i + 3 < bs.length →
    (bytesToInt32LE bs)[i]? = some (toInt32 (bs.getD (4 * i) 0) (bs.getD (4 * i + 1) 0)
      (bs.getD (4 * i + 2) 0) (bs.getD (4 * i + 3) 0)) := by
  induction i with
  | zero =>
    intro bs h
    match bs with
    | [] => simp at h
    | [a] => simp at h
    | [a, b] => simp at h
    | [a, b, c] => simp at h
    | b0 :: b1 :: b2 :: b3 :: rest => simp [bytesToInt32LE]
  | succ i ih =>
    intro bs h
    match bs with
    | [] => exact absurd h (by simp)
    | [a] => exact absurd h (by simp)
    | [a, b] => exact absurd h (by simp)
    | [a, b, c] => exact absurd h (by simp)
    | b0 :: b1 :: b2 :: b3 :: rest =>
      have hr : 4 * i + 3 < rest.length := by
        simp only [List.length_cons] at h; omega
      show (toInt32 b0 b1 b2 b3 :: bytesToInt32LE rest)[i + 1]? = _
      rw [List.getElem?_cons_succ, ih rest hr]
      have h1 : 4 * (i + 1) = (4 * i) + 4 := by ring
      rw [h1]
      have e0 : (b0 :: b1 :: b2 :: b3 :: rest).getD (4 * i + 4) 0 = rest.getD (4 * i) 0 := by
        simp [show 4 * i + 4 = 4 * i + 1 + 1 + 1 + 1 by ring, List.getD_cons_succ]
      have e1 : (b0 :: b1 :: b2 :: b3 :: rest).getD (4 * i + 4 + 1) 0 = rest.getD (4 * i + 1) 0 := by
        simp [show 4 * i + 4 + 1 = 4 * i + 2 + 1 + 1 + 1 by ring, List.getD_cons_succ]
      have e2 : (b0 :: b1 :: b2 :: b3 :: rest).getD (4 * i + 4 + 2) 0 = rest.getD (4 * i + 2) 0 := by
        simp [show 4 * i + 4 + 2 = 4 * i + 3 + 1 + 1 + 1 by ring, List.getD_cons_succ]
      have e3 : (b0 :: b1 :: b2 :: b3 :: rest).getD (4 * i + 4 + 3) 0 = rest.getD (4 * i + 3) 0 := by
        simp [show 4 * i + 4 + 3 = 4 * i + 4 + 1 + 1 + 1 by ring, List.getD_cons_succ]
      rw [e0, e1, e2, e3]

theorem meanChunks_length : ∀ (ch : ℕ) (xs : List ℚ), ch ≠ 0 → ch ∣ xs.length →
    (meanChunks ch xs).length = xs.length / ch := by
  intro ch xs
  induction xs using meanChunks.induct ch with
  | case1 xs h =>
    intro hch hdvd
    rcases h with h | h
    · exact absurd h hch
    · subst h; simp [meanChunks]
  | case2 xs h ih =>
    intro hch hdvd
    rw [meanChunks, dif_neg h]
    push_neg at h
    obtain ⟨k, hk⟩ := hdvd
    obtain ⟨j, rfl⟩ : ∃ j, k = j + 1 := by
      rcases k with _ | j
      · exact absurd (List.length_eq_zero.mp (by rw [hk, mul_zero])) h.2
      · exact ⟨j, rfl⟩
    have hmul : ch * (j + 1) = ch * j + ch := by ring
    have hlen : (xs.drop ch).length = ch * j := by
      rw [List.length_drop, hk, hmul]; omega
    rw [List.length_cons, ih hch (by rw [hlen]; exact ⟨j, rfl⟩), hlen, hk,
      Nat.mul_div_cancel_left _ (Nat.pos_of_ne_zero hch),
      Nat.mul_div_cancel_left _ (Nat.pos_of_ne_zero hch)]

theorem meanChunks_get (ch : ℕ) (hch : ch ≠ 0) (i : ℕ) : ∀ xs : List ℚ,
    (i + 1) * ch ≤ xs.length →
    (meanChunks ch xs)[i]? = some (((xs.drop (ch * i)).take ch).sum / (ch : ℚ)) := by
  induction i with
  | zero =>
    intro xs h
    have hxs : xs ≠ [] := by
      intro he; subst he; simp at h; omega
    rw [meanChunks, dif_neg (by push_neg; exact ⟨hch, hxs⟩)]
    simp
  | succ i ih =>
    intro xs h
    have hxs : xs ≠ [] := by
      intro he; subst he; simp at h; omega
    rw [meanChunks, dif_neg (by push_neg; exact ⟨hch, hxs⟩)]
    have hrest : (i + 1) * ch ≤ (xs.drop ch).length := by
      rw [List.length_drop]
      have hexp : (i + 1 + 1) * ch = (i + 1) * ch + ch := by ring
      rw [hexp] at h
      omega
    rw [List.getElem?_cons_succ, ih (xs.drop ch) hrest]
    have hdd : (xs.drop ch).drop (ch * i) = xs.drop (ch * (i + 1)) := by
      rw [List.drop_drop]
      congr 1
      ring
    rw [hdd]

/-- The channel-collapse step is the identity for mono input. -/
theorem mixToMono_mono (channels : ℕ) (audio : List ℚ) (h : channels ≤ 1) :
    mixToMono channels audio = .ok audio := by
  rw [mixToMono, if_neg (by omega)]

/-- C5: WAV decoding converts raw frames exactly per bit depth — width 1:
`(byte - 128)/128`; width 2: `int16/32768`; width 4: `int32/2147483648`;
any other width yields the "Unsupported WAV sample width" error; with more
than one channel the interleaved samples are averaged blockwise into mono;
every successful decode returns the sample rate carried in the header. -/
theorem claim5_wav_decode (w : WavHeader) :
    (w.sampleWidth ≠ 1 → w.sampleWidth ≠ 2 → w.sampleWidth ≠ 4 →
      wav_bytes_to_float32 w =
        .error ("Unsupported WAV sample width: " ++ toString w.sampleWidth))
    ∧ (∀ audio rate, wav_bytes_to_float32 w = .ok (audio, rate) → rate = w.sampleRate)
    ∧ (w.channels ≤ 1 → w.sampleWidth = 1 →
      wav_bytes_to_float32 w =
        .ok (w.frames.map (fun b : ℕ => ((b : ℚ) - 128) / 128), w.sampleRate))
    ∧ (w.channels ≤ 1 → w.sampleWidth = 2 → w.frames.length % 2 = 0 →
      ∃ audio, wav_bytes_to_float32 w = .ok (audio, w.sampleRate)
        ∧ audio.length = w.frames.length / 2
        ∧ ∀ i, 2 * i + 1 < w.frames.length →
            audio[i]? = some ((toInt16 (w.frames.getD (2 * i) 0)
              (w.frames.getD (2 * i + 1) 0) : ℚ) / 32768))
    ∧ (w.channels ≤ 1 → w.sampleWidth = 4 → w.frames.length % 4 = 0 →
      ∃ audio, wav_bytes_to_float32 w = .ok (audio, w.sampleRate)
        ∧ audio.length = w.frames.length / 4
        ∧ ∀ i, 4 * i + 3 < w.frames.length →
            audio[i]? = some ((toInt32 (w.frames.getD (4 * i) 0)
              (w.frames.getD (4 * i + 1) 0) (w.frames.getD (4 * i + 2) 0)
              (w.frames.getD (4 * i + 3) 0) : ℚ) / 2147483648))
    ∧ (1 < w.channels → ∀ xs : List ℚ, xs.length % w.channels = 0 →
      mixToMono w.channels xs = .ok (meanChunks w.channels xs)
        ∧ (meanChunks w.channels xs).length = xs.length / w.channels
        ∧ ∀ i, (i + 1) * w.channels ≤ xs.length →
            (meanChunks w.channels xs)[i]? =
              some (((xs.drop (w.channels * i)).take w.channels).sum / (w.channels : ℚ))) := by
  refine ⟨?_, ?_, ?_, ?_, ?_, ?_⟩
  · intro h1 h2 h4
    rw [wav_bytes_to_float32, if_neg h1, if_neg h2, if_neg h4]
  · intro audio rate hok
    rw [wav_bytes_to_float32] at hok
    split_ifs at hok <;> first
      | (split at hok <;> simp_all)
      | simp_all
  · intro hch h1
    rw [wav_bytes_to_float32, if_pos h1, mixToMono_mono _ _ hch]
  · intro hch h2 hmod
    refine ⟨(bytesToInt16LE w.frames).map (fun v : ℤ => (v : ℚ) / 32768), ?_, ?_, ?_⟩
    · rw [wav_bytes_to_float32, if_neg (by omega), if_pos h2, if_pos hmod,
        mixToMono_mono _ _ hch]
    · rw [List.length_map, bytesToInt16LE_length]
    · intro i hi
      rw [List.getElem?_map, bytesToInt16LE_get i w.frames hi]
      rfl
  · intro hch h4 hmod
    refine ⟨(bytesToInt32LE w.frames).map (fun v : ℤ => (v : ℚ) / 2147483648), ?_, ?_, ?_⟩
    · rw [wav_bytes_to_float32, if_neg (by omega), if_neg (by omega), if_pos h4,
        if_pos hmod, mixToMono_mono _ _ hch]
    · rw [List.length_map, bytesToInt32LE_length]
    · intro i hi
      rw [List.getElem?_map, bytesToInt32LE_get i w.frames hi]
      rfl
  · intro hch xs hmod
    refine ⟨?_, ?_, ?_⟩
    · rw [mixToMono, if_pos hch, if_pos hmod]
    · exact meanChunks_length w.channels xs (by omega) (Nat.dvd_of_mod_eq_zero hmod)
    · intro i hi
      exact meanChunks_get w.channels (by omega) i xs hi

/-!
## Resampler (`whisper_worker.resample_linear`, lines 48-58)

`np.linspace(0, d, num=n, endpoint=False)` and `np.interp` are translated
directly; Python 3 `round` is round-half-to-even (`pyRound`).
-/

/-- Python 3 `round` on an exact value: nearest integer, ties to even. -/
def pyRound (q : ℚ) : ℤ :=
  if Int.fract q < 1 / 2 then ⌊q⌋
  else if 1 / 2 < Int.fract q then ⌊q⌋ + 1
  else if Even ⌊q⌋ then ⌊q⌋ else ⌊q⌋ + 1

/-- Model of `np.linspace(0.0, stop, num, endpoint=False)`: `num` points `i*stop/num`. -/
def linspace_ef (stop : ℚ) (num : ℕ) : List ℚ :=
  (List.range num).map (fun i : ℕ => stop * (i : ℚ) / (num : ℚ))

/-- Model of `np.interp` evaluated at one point over sorted sample points with their
values (clamping to the first/last value outside the sampled interval). -/
def interpPts : List (ℚ × ℚ) → ℚ → ℚ
  | [], _ => 0
  | [(_, y1)], _ => y1
  | (x1, y1) :: (x2, y2) :: rest, t =>
    if t ≤ x1 then y1
    else if t ≤ x2 then y1 + (y2 - y1) * (t - x1) / (x2 - x1)
    else interpPts ((x2, y2) :: rest) t

/-- Translation of `resample_linear` (lines 48-58): identity when the rates agree or the
buffer is empty; otherwise linear interpolation onto
`max(1, round(duration * to_rate))` evenly spaced points. -/
def resample_linear (audio : List ℚ) (from_rate to_rate : ℕ) : List ℚ :=
  if from_rate = to_rate ∨ audio.length = 0 then audio
  else
    let duration : ℚ := (audio.length : ℚ) / (from_rate : ℚ)
    let new_length : ℕ := (max 1 (pyRound (duration * (to_rate : ℚ)))).toNat
    let old_times := linspace_ef duration audio.length
    let new_times := linspace_ef duration new_length
    new_times.map (interpPts (old_times.zip audio))

theorem pyRound_le_floor_add_one (q : ℚ) : pyRound q ≤ ⌊q⌋ + 1 := by
  rw [pyRound]; split_ifs <;> omega

theorem pyRound_ge_floor (q : ℚ) : ⌊q⌋ ≤ pyRound q := by
  rw [pyRound]; split_ifs <;> omega

theorem pyRound_intCast (n : ℤ) : pyRound (n : ℚ) = n := by
  rw [pyRound, if_pos]
  · exact Int.floor_intCast n
  · rw [Int.fract_intCast]; norm_num

theorem pyRound_mono {a b : ℚ} (h : a ≤ b) : pyRound a ≤ pyRound b := by
  rcases lt_or_eq_of_le (Int.floor_mono h) with hf | hf
  · have h1 := pyRound_le_floor_add_one a
    have h2 := pyRound_ge_floor b
    omega
  · have hfr : Int.fract a ≤ Int.fract b := by
      rw [Int.fract, Int.fract, hf]
      linarith
    rw [pyRound, pyRound, hf]
    split_ifs <;> first | omega | linarith

/-- Output length of the resampler. -/
theorem resample_linear_length (audio : List ℚ) (from_rate to_rate : ℕ) :
    (resample_linear audio from_rate to_rate).length =
      if from_rate = to_rate ∨ audio.length = 0 then audio.length
      else (max 1 (pyRound ((audio.length : ℚ) / (from_rate : ℚ) * (to_rate : ℚ)))).toNat := by
  rw [resample_linear]
  split_ifs with h
  · rfl
  · simp only [List.length_map, linspace_ef, List.length_range]

/-- C6: if the source rate equals the target rate or the buffer is empty,
resampling returns its input unchanged; in particular an empty buffer
resamples to an empty buffer at any pair of rates. -/
theorem claim6_resample_identity :
    (∀ (audio : List ℚ) (from_rate to_rate : ℕ),
      from_rate = to_rate ∨ audio = [] → resample_linear audio from_rate to_rate = audio)
    ∧ (∀ from_rate to_rate : ℕ, resample_linear [] from_rate to_rate = []) := by
  constructor
  · intro audio from_rate to_rate h
    rw [resample_linear, if_pos]
    rcases h with h | h
    · exact Or.inl h
    · exact Or.inr (by rw [h]; rfl)
  · intro from_rate to_rate
    rw [resample_linear, if_pos (Or.inr List.length_nil)]

/-- C7: for a non-empty buffer and positive rates, the resampled output
length is monotone non-decreasing in the target rate. -/
theorem claim7_resample_length_monotone (audio : List ℚ) (from_rate t1 t2 : ℕ)
    (hne : audio ≠ []) (hfr : 0 < from_rate) (ht1 : 0 < t1) (ht2 : 0 < t2)
    (h12 : t1 ≤ t2) :
    (resample_linear audio from_rate t1).length ≤
      (resample_linear audio from_rate t2).length := by
  have hn : 0 < audio.length := List.length_pos.mpr hne
  have hfrq : (0 : ℚ) < (from_rate : ℚ) := by exact_mod_cast hfr
  have hd0 : (0 : ℚ) ≤ (audio.length : ℚ) / (from_rate : ℚ) := by positivity
  rw [resample_linear_length, resample_linear_length]
  by_cases e1 : from_rate = t1 <;> by_cases e2 : from_rate = t2
  · rw [if_pos (Or.inl e1), if_pos (Or.inl e2)]
  · -- t1 is the identity rate, t2 is strictly different: output grows
    rw [if_pos (Or.inl e1), if_neg (by push_neg; exact ⟨e2, by omega⟩)]
    have hle : (audio.length : ℚ) ≤ (audio.length : ℚ) / (from_rate : ℚ) * (t2 : ℚ) := by
      rw [div_mul_eq_mul_div, le_div_iff hfrq]
      have hfrt : from_rate ≤ t2 := by omega
      have hcast : ((from_rate : ℚ)) ≤ (t2 : ℚ) := by exact_mod_cast hfrt
      exact mul_le_mul_of_nonneg_left hcast (by positivity)
    have hr : (audio.length : ℤ) ≤ pyRound ((audio.length : ℚ) / (from_rate : ℚ) * (t2 : ℚ)) := by
      have := pyRound_mono hle
      rwa [show ((audio.length : ℚ)) = ((audio.length : ℤ) : ℚ) by push_cast; ring,
        pyRound_intCast] at this
    omega
  · -- t2 is the identity rate, t1 strictly different: output shrinks or stays
    rw [if_neg (by push_neg; exact ⟨e1, by omega⟩), if_pos (Or.inl e2)]
    have hle : (audio.length : ℚ) / (from_rate : ℚ) * (t1 : ℚ) ≤ (audio.length : ℚ) := by
      rw [div_mul_eq_mul_div, div_le_iff hfrq]
      have ht1f : t1 ≤ from_rate := by omega
      have hcast : ((t1 : ℚ)) ≤ (from_rate : ℚ) := by exact_mod_cast ht1f
      exact mul_le_mul_of_nonneg_left hcast (by positivity)
    have hr : pyRound ((audio.length : ℚ) / (from_rate : ℚ) * (t1 : ℚ)) ≤ (audio.length : ℤ) := by
      have := pyRound_mono hle
      rwa [show ((audio.length : ℚ)) = ((audio.length : ℤ) : ℚ) by push_cast; ring,
        pyRound_intCast] at this
    omega
  · rw [if_neg (by push_neg; exact ⟨e1, by omega⟩), if_neg (by push_neg; exact ⟨e2, by omega⟩)]
    have hle : (audio.length : ℚ) / (from_rate : ℚ) * (t1 : ℚ) ≤
        (audio.length : ℚ) / (from_rate : ℚ) * (t2 : ℚ) := by
      have hcast : ((t1 : ℚ)) ≤ (t2 : ℚ) := by exact_mod_cast h12
      exact mul_le_mul_of_nonneg_left hcast hd0
    have := pyRound_mono hle
    omega

/-!
## Confidence scoring (`whisper_worker` lines 22-23, 61-91, 168-179)

`math.exp` is an external floating-point routine; it is modelled as an
abstract function `pexp : ℚ → ℚ` (the one fact the claims need of it,
`exp 0 = 1`, holds exactly for IEEE `math.exp` and for the real
exponential).  A recognition-model segment dict is modelled by `Seg` with
optional fields, mirroring the `.get(..., default)` accesses of the source.
-/

/-- Translation of `clamp` (lines 22-23). -/
def clamp (value minimum maximum : ℚ) : ℚ :=
  max minimum (min maximum value)

/-- A segment dict as produced by the recognition model or by the
normalization loop; a `none` field models a missing key. -/
structure Seg where
  start : Option ℚ
  «end» : Option ℚ
  text : Option String
  confidence : Option ℚ
  avg_logprob : Option ℚ
  no_speech_prob : Option ℚ

/-- Translation of `segment_confidence` (lines 61-65), with `math.exp` abstracted as `pexp`. -/
def segment_confidence (pexp : ℚ → ℚ) (segment : Seg) : ℚ :=
  let avg_logprob := segment.avg_logprob.getD (-0.7)
  let no_speech_prob := segment.no_speech_prob.getD 0
  let log_prob_score := pexp (min 0 avg_logprob)
  clamp (log_prob_score * (1 - clamp no_speech_prob 0 1)) 0 1

/-- The per-segment weight of the aggregation loop (lines 76-83):
`max(0.2, end - start) + max(0.2, len(text) / 20)`. -/
def segmentWeight (segment : Seg) : ℚ :=
  let start := segment.start.getD 0
  let endv := segment.«end».getD start
  let text := segment.text.getD ""
  max 0.2 (endv - start) + max 0.2 ((text.length : ℚ) / 20)

/-- One iteration of the aggregation loop (lines 75-86), accumulating
`(weighted_sum, total_weight)`. -/
def aggStep (fallback : ℚ) (acc : ℚ × ℚ) (segment : Seg) : ℚ × ℚ :=
  let confidence := segment.confidence.getD fallback
  let weight := segmentWeight segment
  (acc.1 + confidence * weight, acc.2 + weight)

/-- Translation of `aggregate_confidence` (lines 68-91). -/
def aggregate_confidence (segments : List Seg) (fallback : ℚ) : ℚ :=
  if segments.isEmpty then clamp fallback 0 1
  else
    let acc := segments.foldl (aggStep fallback) (0, 0)
    if acc.2 ≤ 0 then clamp fallback 0 1
    else clamp (acc.1 / acc.2) 0 1

/-- The normalization of one raw model segment (lines 168-179). -/
def normalizeSegment (pexp : ℚ → ℚ) (segment : Seg) : Seg where
  start := some (segment.start.getD 0)
  «end» := some (segment.«end».getD 0)
  text := some (pystrip (segment.text.getD ""))
  confidence := some (segment_confidence pexp segment)
  avg_logprob := some (segment.avg_logprob.getD (-0.7))
  no_speech_prob := some (segment.no_speech_prob.getD 0)

theorem segmentWeight_ge (s : Seg) : (0.4 : ℚ) ≤ segmentWeight s := by
  rw [segmentWeight]
  have h1 : (0.2 : ℚ) ≤ max 0.2 (s.«end».getD (s.start.getD 0) - s.start.getD 0) :=
    le_max_left _ _
  have h2 : (0.2 : ℚ) ≤ max 0.2 (((s.text.getD "").length : ℚ) / 20) :=
    le_max_left _ _
  calc (0.4 : ℚ) = 0.2 + 0.2 := by norm_num
    _ ≤ _ := add_le_add h1 h2

theorem foldl_aggStep_snd (fallback : ℚ) (segs : List Seg) :
    ∀ acc : ℚ × ℚ, (segs.foldl (aggStep fallback) acc).2 =
      acc.2 + (segs.map segmentWeight).sum := by
  induction segs with
  | nil => intro acc; simp
  | cons s rest ih =>
    intro acc
    rw [List.foldl_cons, ih, List.map_cons, List.sum_cons]
    rw [aggStep]
    ring

theorem sum_segmentWeights_ge (segs : List Seg) :
    (0.4 : ℚ) * segs.length ≤ (segs.map segmentWeight).sum := by
  induction segs with
  | nil => simp
  | cons s rest ih =>
    rw [List.map_cons, List.sum_cons, List.length_cons]
    have := segmentWeight_ge s
    push_cast
    linarith

theorem clamp_le_of_le (x lo hi : ℚ) (h : lo ≤ hi) :
    lo ≤ clamp x lo hi ∧ clamp x lo hi ≤ hi := by
  constructor
  · exact le_max_left _ _
  · exact max_le h (min_le_left _ _)

/-- C9: every segment weight is at least `0.4`, so for a non-empty segment
list the accumulated total weight is strictly positive, the
`total_weight <= 0` fallback branch is not taken (the result is exactly the
clamped weighted mean), and the aggregate always lies in `[0, 1]`. -/
theorem claim9_aggregate_weight_safety (segments : List Seg) (fallback : ℚ)
    (hne : segments ≠ []) :
    (∀ s ∈ segments, (0.4 : ℚ) ≤ segmentWeight s)
    ∧ 0 < (segments.foldl (aggStep fallback) (0, 0)).2
    ∧ aggregate_confidence segments fallback =
        clamp ((segments.foldl (aggStep fallback) (0, 0)).1 /
          (segments.foldl (aggStep fallback) (0, 0)).2) 0 1
    ∧ 0 ≤ aggregate_confidence segments fallback
    ∧ aggregate_confidence segments fallback ≤ 1 := by
  have hlen : 1 ≤ segments.length := by
    cases segments with
    | nil => exact absurd rfl hne
    | cons s rest => simp
  have hpos : 0 < (segments.foldl (aggStep fallback) (0, 0)).2 := by
    rw [foldl_aggStep_snd]
    show (0 : ℚ) < (0 : ℚ) + (segments.map segmentWeight).sum
    have h1 := sum_segmentWeights_ge segments
    have h2 : (0.4 : ℚ) * 1 ≤ (0.4 : ℚ) * segments.length := by
      have : (1 : ℚ) ≤ (segments.length : ℚ) := by exact_mod_cast hlen
      linarith
    linarith
  have hform : aggregate_confidence segments fallback =
      clamp ((segments.foldl (aggStep fallback) (0, 0)).1 /
        (segments.foldl (aggStep fallback) (0, 0)).2) 0 1 := by
    rw [aggregate_confidence, if_neg (by simp [List.isEmpty_iff, hne]),
      if_neg (by simp only [not_le]; exact hpos)]
  refine ⟨fun s _ => segmentWeight_ge s, hpos, hform, ?_, ?_⟩
  · rw [hform]; exact (clamp_le_of_le _ 0 1 (by norm_num)).1
  · rw [hform]; exact (clamp_le_of_le _ 0 1 (by norm_num)).2

theorem normalizeSegment_confidence (pexp : ℚ → ℚ) (s : Seg) :
    (normalizeSegment pexp s).confidence = some (segment_confidence pexp s) := rfl

/-- Aggregating a single normalized segment gives the clamp of its stored
segment confidence. -/
theorem aggregate_single_norm (pexp : ℚ → ℚ) (fallback : ℚ) (s : Seg) :
    aggregate_confidence [normalizeSegment pexp s] fallback =
      clamp (segment_confidence pexp s) 0 1 := by
  have hw := segmentWeight_ge (normalizeSegment pexp s)
  rw [aggregate_confidence]
  rw [if_neg (by simp)]
  simp only [List.foldl_cons, List.foldl_nil]
  rw [aggStep]
  simp only [normalizeSegment_confidence, Option.getD_some]
  show (if (0 : ℚ) + segmentWeight (normalizeSegment pexp s) ≤ 0 then _ else _) = _
  rw [if_neg (by simp only [not_le]; linarith)]
  congr 1
  rw [zero_add, zero_add, mul_div_assoc,
    div_self (by linarith : segmentWeight (normalizeSegment pexp s) ≠ 0), mul_one]

/-- C8: for a single-segment transcription, `avg_logprob = 0` and
`no_speech_prob = 0` give segment and aggregate confidence `1`, and
`no_speech_prob = 1` gives both equal to `0`, regardless of the start, end
and text of the segment. -/
theorem claim8_single_segment_extremes (pexp : ℚ → ℚ) (s : Seg) (fallback : ℚ)
    (hexp : pexp 0 = 1) :
    (s.avg_logprob = some 0 → s.no_speech_prob = some 0 →
      segment_confidence pexp s = 1
      ∧ aggregate_confidence [normalizeSegment pexp s] fallback = 1)
    ∧ (s.no_speech_prob = some 1 →
      segment_confidence pexp s = 0
      ∧ aggregate_confidence [normalizeSegment pexp s] fallback = 0) := by
  constructor
  · intro hlp hns
    have hsc : segment_confidence pexp s = 1 := by
      rw [segment_confidence, hlp, hns]
      simp only [Option.getD_some]
      rw [min_self]  -- min 0 0
      rw [hexp]
      rw [show clamp 0 0 1 = 0 by rw [clamp]; norm_num]
      rw [show (1 : ℚ) * (1 - 0) = 1 by norm_num]
      rw [clamp]; norm_num
    refine ⟨hsc, ?_⟩
    rw [aggregate_single_norm, hsc, clamp]; norm_num
  · intro hns
    have hsc : segment_confidence pexp s = 0 := by
      rw [segment_confidence, hns]
      simp only [Option.getD_some]
      rw [show clamp 1 0 1 = 1 by rw [clamp]; norm_num]
      rw [show (1 : ℚ) - 1 = 0 by norm_num, mul_zero]
      rw [clamp]; norm_num
    refine ⟨hsc, ?_⟩
    rw [aggregate_single_norm, hsc, clamp]; norm_num

/-!
## Worker protocol engine (`whisper_worker.main`, `piper_worker.main`)

One stdin line is an `InLine`: its raw text together with the outcome of
`json.loads` on the stripped text (the parser is the external standard
library, so its verdict is part of the input model).  Each emitted stdout
line is a `Json` object.  External calls made while handling a request
(base64, `wave.open`, the models, timing) are oracle fields of the
environment; a `.error` result models a raised exception.
-/

/-- One line read from stdin: the raw text and what `json.loads` returns on
the stripped text (`.error msg` models a raised `json.JSONDecodeError`). -/
structure InLine where
  raw : String
  parsed : Except String Json

/-- The failure response `{"id": ..., "success": false, "error": ...}`
emitted at whisper lines 129-133, 138-142, 194-198 and piper lines 87-91,
96-100, 119-123. -/
def failObj (rid : Json) (msg : String) : Json :=
  Json.obj [("id", rid), ("success", Json.bool false), ("error", Json.str msg)]

/-- Result dict of `model.transcribe` (external model call): optional
`text`, `language` and `segments` entries; a `none` list entry models a
segment that is not a dict (skipped at lines 169-170). -/
structure TResult where
  text : Option String
  language : Option String
  segments : Option (List (Option Seg))

/-- External oracles of the whisper worker: `math.exp`, `base64.b64decode`,
the `wave.open` header parse, `model.transcribe`, and the elapsed-time
measurement for `duration_ms`. -/
structure WhisperEnv where
  pexp : ℚ → ℚ
  b64decode : String → Except String (List ℕ)
  openWav : List ℕ → Except String WavHeader
  transcribe : List ℚ → Option String → Except String TResult
  transcribe_ms : ℤ

/-- JSON rendering of one normalized segment in the success response
(lines 172-179). -/
def normSegToJson (s : Seg) : Json :=
  Json.obj [("start", Json.num (s.start.getD 0)), ("end", Json.num (s.«end».getD 0)),
    ("text", Json.str (s.text.getD "")), ("confidence", Json.num (s.confidence.getD 0)),
    ("avg_logprob", Json.num (s.avg_logprob.getD 0)),
    ("no_speech_prob", Json.num (s.no_speech_prob.getD 0))]

/-- The whisper success response (lines 184-192). -/
def whisperSuccessObj (rid : Json) (text language : String) (confidence : ℚ)
    (segments : List Seg) (duration_ms : ℤ) : Json :=
  Json.obj [("id", rid), ("success", Json.bool true), ("text", Json.str text),
    ("language", Json.str language), ("confidence", Json.num confidence),
    ("segments", Json.arr (segments.map normSegToJson)),
    ("duration_ms", Json.num duration_ms)]

/-- The body of the whisper `try` block after `id` extraction
(lines 126-192).  An `.ok` value is the single response to emit; an
`.error` value is a raised exception, caught at line 193. -/
def whisperBody (env : WhisperEnv) (request_id : Json) (payload : Json) :
    Except String Json :=
  let command := jGetD payload "command"
  if jStrEq command "transcribe" = false then
    .ok (failObj request_id ("Unsupported command: " ++ pyStr command))
  else
    match jGetD payload "audio_b64" with
    | Json.str audio_b64 =>
      if audio_b64.length = 0 then .ok (failObj request_id "audio_b64 is required")
      else
        match env.b64decode audio_b64 with
        | .error e => .error e
        | .ok audio_bytes =>
          match env.openWav audio_bytes with
          | .error e => .error e
          | .ok hdr =>
            match wav_bytes_to_float32 hdr with
            | .error e => .error e
            | .ok (audio0, sample_rate) =>
              let audio := resample_linear audio0 sample_rate 16000
              let language := jGetD payload "language"
              let langOpt :=
                match language with
                | Json.str ls => if pystrip ls = "" then none else some (pystrip ls)
                | _ => none
              match env.transcribe audio langOpt with
              | .error e => .error e
              | .ok result =>
                let text := pystrip (result.text.getD "")
                let language_out :=
                  result.language.getD (if pyTruthy language then pyStr language else "en")
                let normalized :=
                  ((result.segments.getD []).filterMap id).map (normalizeSegment env.pexp)
                let fallback_confidence : ℚ := if text = "" then 0 else 0.75
                let confidence := aggregate_confidence normalized fallback_confidence
                .ok (whisperSuccessObj request_id text language_out confidence
                  normalized env.transcribe_ms)
    | _ => .ok (failObj request_id "audio_b64 is required")

/-- Processing of one stdin line by the whisper worker (lines 117-198). -/
def whisperStep (env : WhisperEnv) (line : InLine) : List Json :=
  if pystrip line.raw = "" then []
  else
    match line.parsed with
    | .error msg => [failObj Json.null msg]
    | .ok payload =>
      if payload.isObj = false then [failObj Json.null (attrErrMsg payload)]
      else
        let request_id := jGetD payload "id"
        match whisperBody env request_id payload with
        | .ok resp => [resp]
        | .error msg => [failObj request_id msg]

/-- The whisper serving loop: responses for a whole stdin stream. -/
def whisperRun (env : WhisperEnv) (lines : List InLine) : List Json :=
  lines.flatMap (whisperStep env)

/-- Startup inputs of the whisper worker: the two environment variables and
the `whisper.load_model` outcome (external), plus the startup timing. -/
structure WhisperStartup where
  model_env : Option String
  device_env : Option String
  load_model : String → String → Except String Unit
  startup_ms : ℤ

/-- The whisper ready event (lines 109-115). -/
def whisperReady (st : WhisperStartup) : Json :=
  Json.obj [("event", Json.str "ready"), ("success", Json.bool true),
    ("model", Json.str (st.model_env.getD "small")),
    ("device", Json.str (st.device_env.getD "cpu")),
    ("startup_ms", Json.num st.startup_ms)]

/-- The whisper startup-failure event (lines 102-106). -/
def whisperLoadError (st : WhisperStartup) (e : String) : Json :=
  Json.obj [("event", Json.str "error"), ("success", Json.bool false),
    ("error", Json.str ("Failed to load Whisper model \x27" ++
      st.model_env.getD "small" ++ "\x27: " ++ e))]

/-- Translation of `whisper_worker.main` (lines 94-200): emitted stdout lines and the exit
status. -/
def whisperMain (st : WhisperStartup) (env : WhisperEnv) (lines : List InLine) :
    List Json × ℕ :=
  match st.load_model (st.model_env.getD "small") (st.device_env.getD "cpu") with
  | .error e => ([whisperLoadError st e], 1)
  | .ok _ => (whisperReady st :: whisperRun env lines, 0)

/-- External oracles of the piper worker: the `float(...)` builtin on
strings, `voice.synthesize_wav`, the `wave.open` rate query, base64
encoding and the elapsed-time measurement. -/
structure PiperEnv where
  pyfloat : String → Option ℚ
  synthesize_wav : String → ℚ → ℚ → Except String (List ℕ)
  get_sample_rate : List ℕ → Except String ℕ
  b64encode : List ℕ → String
  synth_ms : ℤ

/-- Translation of `piper_worker.to_float` (lines 20-24): `float(value)` with a fallback on
`TypeError`/`ValueError`.  `float` succeeds on numbers, booleans and
numeric strings (string parsing is the external `pyfloat` oracle). -/
def to_float (pyfloat : String → Option ℚ) (value : Json) (fallback : ℚ) : ℚ :=
  match value with
  | Json.num q => q
  | Json.bool b => if b then 1 else 0
  | Json.str s => (pyfloat s).getD fallback
  | _ => fallback

/-- The piper success response (lines 111-117). -/
def piperSuccessObj (rid : Json) (audio_b64 : String) (sample_rate : ℕ)
    (duration_ms : ℤ) : Json :=
  Json.obj [("id", rid), ("success", Json.bool true),
    ("audio_b64", Json.str audio_b64), ("sample_rate", Json.num sample_rate),
    ("duration_ms", Json.num duration_ms)]

/-- The body of the piper `try` block after `id` extraction (lines 84-117). -/
def piperBody (env : PiperEnv) (request_id : Json) (payload : Json) :
    Except String Json :=
  let command := jGetD payload "command"
  if jStrEq command "synthesize" = false then
    .ok (failObj request_id ("Unsupported command: " ++ pyStr command))
  else
    let text := pystrip (pyStr (jGetDefault payload "text" (Json.str "")))
    if text = "" then .ok (failObj request_id "Text cannot be empty")
    else
      let length_scale := to_float env.pyfloat (jGetD payload "length_scale") 0.85
      let volume := to_float env.pyfloat (jGetD payload "volume") 1
      match env.synthesize_wav text length_scale volume with
      | .error e => .error e
      | .ok wav_bytes =>
        match env.get_sample_rate wav_bytes with
        | .error e => .error e
        | .ok sample_rate =>
          .ok (piperSuccessObj request_id (env.b64encode wav_bytes)
            sample_rate env.synth_ms)

/-- Processing of one stdin line by the piper worker (lines 75-123). -/
def piperStep (env : PiperEnv) (line : InLine) : List Json :=
  if pystrip line.raw = "" then []
  else
    match line.parsed with
    | .error msg => [failObj Json.null msg]
    | .ok payload =>
      if payload.isObj = false then [failObj Json.null (attrErrMsg payload)]
      else
        let request_id := jGetD payload "id"
        match piperBody env request_id payload with
        | .ok resp => [resp]
        | .error msg => [failObj request_id msg]

/-- The piper serving loop. -/
def piperRun (env : PiperEnv) (lines : List InLine) : List Json :=
  lines.flatMap (piperStep env)

/-- Startup inputs of the piper worker: the three environment variables, the
`PiperVoice.load` outcome (external, as a function of path, config path and
CUDA flag), and the startup timing. -/
structure PiperStartup where
  model_path : Option String
  config_path : Option String
  use_cuda_env : Option String
  loadVoice : String → Option String → Bool → Except String Unit
  startup_ms : ℤ

/-- Translation of `piper_worker.load_voice` (lines 27-34). -/
def load_voice (st : PiperStartup) : Except String Unit :=
  match st.model_path with
  | none => .error "PIPER_MODEL_PATH is required"
  | some mp =>
    if mp = "" then .error "PIPER_MODEL_PATH is required"
    else
      let config_path :=
        match st.config_path with
        | some c => if c = "" then none else some c
        | none => none
      st.loadVoice mp config_path ((st.use_cuda_env.getD "false").toLower = "true")

/-- The piper ready event (lines 69-73). -/
def piperReady (st : PiperStartup) : Json :=
  Json.obj [("event", Json.str "ready"), ("success", Json.bool true),
    ("startup_ms", Json.num st.startup_ms)]

/-- The piper startup-failure event (lines 62-66). -/
def piperLoadError (e : String) : Json :=
  Json.obj [("event", Json.str "error"), ("success", Json.bool false),
    ("error", Json.str ("Failed to load Piper voice: " ++ e))]

/-- Translation of `piper_worker.main` (lines 57-125). -/
def piperMain (st : PiperStartup) (env : PiperEnv) (lines : List InLine) :
    List Json × ℕ :=
  match load_voice st with
  | .error e => ([piperLoadError e], 1)
  | .ok _ => (piperReady st :: piperRun env lines, 0)

theorem failObj_id (rid : Json) (msg : String) :
    jLookup (failObj rid msg) "id" = some rid := by
  simp [failObj, jLookup, lookupKV]

theorem failObj_success (rid : Json) (msg : String) :
    jLookup (failObj rid msg) "success" = some (Json.bool false) := by
  simp [failObj, jLookup, lookupKV]

theorem failObj_event (rid : Json) (msg : String) :
    jLookup (failObj rid msg) "event" = none := by
  simp [failObj, jLookup, lookupKV]

theorem failObj_keys (rid : Json) (msg : String) :
    jKeys (failObj rid msg) = ["id", "success", "error"] := by
  simp [failObj, jKeys]

theorem whisperSuccessObj_id (rid : Json) (t l : String) (c : ℚ) (s : List Seg) (d : ℤ) :
    jLookup (whisperSuccessObj rid t l c s d) "id" = some rid := by
  simp [whisperSuccessObj, jLookup, lookupKV]

theorem whisperSuccessObj_success (rid : Json) (t l : String) (c : ℚ) (s : List Seg) (d : ℤ) :
    jLookup (whisperSuccessObj rid t l c s d) "success" = some (Json.bool true) := by
  simp [whisperSuccessObj, jLookup, lookupKV]

theorem whisperSuccessObj_event (rid : Json) (t l : String) (c : ℚ) (s : List Seg) (d : ℤ) :
    jLookup (whisperSuccessObj rid t l c s d) "event" = none := by
  simp [whisperSuccessObj, jLookup, lookupKV]

theorem piperSuccessObj_id (rid : Json) (a : String) (sr : ℕ) (d : ℤ) :
    jLookup (piperSuccessObj rid a sr d) "id" = some rid := by
  simp [piperSuccessObj, jLookup, lookupKV]

theorem piperSuccessObj_success (rid : Json) (a : String) (sr : ℕ) (d : ℤ) :
    jLookup (piperSuccessObj rid a sr d) "success" = some (Json.bool true) := by
  simp [piperSuccessObj, jLookup, lookupKV]

theorem piperSuccessObj_event (rid : Json) (a : String) (sr : ℕ) (d : ℤ) :
    jLookup (piperSuccessObj rid a sr d) "event" = none := by
  simp [piperSuccessObj, jLookup, lookupKV]

theorem whisperReady_success (st : WhisperStartup) :
    jLookup (whisperReady st) "success" = some (Json.bool true) := by
  simp [whisperReady, jLookup, lookupKV]

theorem whisperReady_event (st : WhisperStartup) :
    jLookup (whisperReady st) "event" = some (Json.str "ready") := by
  simp [whisperReady, jLookup, lookupKV]

theorem whisperLoadError_success (st : WhisperStartup) (e : String) :
    jLookup (whisperLoadError st e) "success" = some (Json.bool false) := by
  simp [whisperLoadError, jLookup, lookupKV]

theorem whisperLoadError_event (st : WhisperStartup) (e : String) :
    jLookup (whisperLoadError st e) "event" = some (Json.str "error") := by
  simp [whisperLoadError, jLookup, lookupKV]

theorem whisperLoadError_keys (st : WhisperStartup) (e : String) :
    jKeys (whisperLoadError st e) = ["event", "success", "error"] := by
  simp [whisperLoadError, jKeys]

theorem piperReady_success (st : PiperStartup) :
    jLookup (piperReady st) "success" = some (Json.bool true) := by
  simp [piperReady, jLookup, lookupKV]

theorem piperReady_event (st : PiperStartup) :
    jLookup (piperReady st) "event" = some (Json.str "ready") := by
  simp [piperReady, jLookup, lookupKV]

theorem piperLoadError_success (e : String) :
    jLookup (piperLoadError e) "success" = some (Json.bool false) := by
  simp [piperLoadError, jLookup, lookupKV]

theorem piperLoadError_event (e : String) :
    jLookup (piperLoadError e) "event" = some (Json.str "error") := by
  simp [piperLoadError, jLookup, lookupKV]

theorem piperLoadError_keys (e : String) :
    jKeys (piperLoadError e) = ["event", "success", "error"] := by
  simp [piperLoadError, jKeys]

/-- Every value the whisper handler returns is a failure envelope or a
success envelope carrying the extracted request id. -/
theorem whisperBody_shape (env : WhisperEnv) (rid payload r : Json)
    (h : whisperBody env rid payload = .ok r) :
    (∃ msg, r = failObj rid msg) ∨
    (∃ t l c s d, r = whisperSuccessObj rid t l c s d) := by
  rw [whisperBody] at h
  dsimp only at h
  repeat' split at h
  all_goals first
    | exact Except.noConfusion h
    | (injection h with h; subst h; exact Or.inl ⟨_, rfl⟩)
    | (injection h with h; subst h; exact Or.inr ⟨_, _, _, _, _, rfl⟩)

/-- Every value the piper handler returns is a failure envelope or a
success envelope carrying the extracted request id. -/
theorem piperBody_shape (env : PiperEnv) (rid payload r : Json)
    (h : piperBody env rid payload = .ok r) :
    (∃ msg, r = failObj rid msg) ∨
    (∃ a sr d, r = piperSuccessObj rid a sr d) := by
  rw [piperBody] at h
  dsimp only at h
  repeat' split at h
  all_goals first
    | exact Except.noConfusion h
    | (injection h with h; subst h; exact Or.inl ⟨_, rfl⟩)
    | (injection h with h; subst h; exact Or.inr ⟨_, _, _, rfl⟩)

/-- Every line the whisper step emits is a failure envelope or a success
envelope. -/
theorem whisperStep_shape (env : WhisperEnv) (line : InLine) :
    ∀ r ∈ whisperStep env line,
      (∃ rid msg, r = failObj rid msg) ∨
      (∃ rid t l c s d, r = whisperSuccessObj rid t l c s d) := by
  intro r hr
  rw [whisperStep] at hr
  split at hr
  · exact absurd hr (by simp)
  · split at hr
    · rw [List.mem_singleton] at hr
      exact Or.inl ⟨_, _, hr⟩
    · split at hr
      · rw [List.mem_singleton] at hr
        exact Or.inl ⟨_, _, hr⟩
      · dsimp only at hr
        split at hr
        next resp heq =>
          rw [List.mem_singleton] at hr
          subst hr
          rcases whisperBody_shape _ _ _ _ heq with ⟨msg, hm⟩ | ⟨t, l, c, s, d, hm⟩
          · exact Or.inl ⟨_, _, hm⟩
          · exact Or.inr ⟨_, _, _, _, _, _, hm⟩
        next msg heq =>
          rw [List.mem_singleton] at hr
          exact Or.inl ⟨_, _, hr⟩

/-- Every line the piper step emits is a failure envelope or a success
envelope. -/
theorem piperStep_shape (env : PiperEnv) (line : InLine) :
    ∀ r ∈ piperStep env line,
      (∃ rid msg, r = failObj rid msg) ∨
      (∃ rid a sr d, r = piperSuccessObj rid a sr d) := by
  intro r hr
  rw [piperStep] at hr
  split at hr
  · exact absurd hr (by simp)
  · split at hr
    · rw [List.mem_singleton] at hr
      exact Or.inl ⟨_, _, hr⟩
    · split at hr
      · rw [List.mem_singleton] at hr
        exact Or.inl ⟨_, _, hr⟩
      · dsimp only at hr
        split at hr
        next resp heq =>
          rw [List.mem_singleton] at hr
          subst hr
          rcases piperBody_shape _ _ _ _ heq with ⟨msg, hm⟩ | ⟨a, sr, d, hm⟩
          · exact Or.inl ⟨_, _, hm⟩
          · exact Or.inr ⟨_, _, _, _, hm⟩
        next msg heq =>
          rw [List.mem_singleton] at hr
          exact Or.inl ⟨_, _, hr⟩

/-- Splitting a run around one line. -/
theorem whisperRun_append_cons (env : WhisperEnv) (pre : List InLine) (l : InLine)
    (post : List InLine) :
    whisperRun env (pre ++ l :: post) =
      whisperRun env pre ++ whisperStep env l ++ whisperRun env post := by
  rw [whisperRun, List.flatMap_append, List.flatMap_cons, whisperRun, whisperRun,
    List.append_assoc]

/-- Splitting a run around one line. -/
theorem piperRun_append_cons (env : PiperEnv) (pre : List InLine) (l : InLine)
    (post : List InLine) :
    piperRun env (pre ++ l :: post) =
      piperRun env pre ++ piperStep env l ++ piperRun env post := by
  rw [piperRun, List.flatMap_append, List.flatMap_cons, piperRun, piperRun,
    List.append_assoc]

/-- A malformed line (parse failure) yields exactly the null-id failure. -/
theorem whisperStep_parse_error (env : WhisperEnv) (l : InLine) (msg : String)
    (hs : pystrip l.raw ≠ "") (hp : l.parsed = .error msg) :
    whisperStep env l = [failObj Json.null msg] := by
  rw [whisperStep, if_neg hs, hp]

/-- A line parsing to a non-dict yields exactly the null-id failure with the
`AttributeError` message. -/
theorem whisperStep_not_dict (env : WhisperEnv) (l : InLine) (payload : Json)
    (hs : pystrip l.raw ≠ "") (hp : l.parsed = .ok payload)
    (ho : payload.isObj = false) :
    whisperStep env l = [failObj Json.null (attrErrMsg payload)] := by
  rw [whisperStep, if_neg hs, hp]
  dsimp only
  rw [if_pos ho]

theorem piperStep_parse_error (env : PiperEnv) (l : InLine) (msg : String)
    (hs : pystrip l.raw ≠ "") (hp : l.parsed = .error msg) :
    piperStep env l = [failObj Json.null msg] := by
  rw [piperStep, if_neg hs, hp]

theorem piperStep_not_dict (env : PiperEnv) (l : InLine) (payload : Json)
    (hs : pystrip l.raw ≠ "") (hp : l.parsed = .ok payload)
    (ho : payload.isObj = false) :
    piperStep env l = [failObj Json.null (attrErrMsg payload)] := by
  rw [piperStep, if_neg hs, hp]
  dsimp only
  rw [if_pos ho]

/-- C1: a non-blank line that is not a valid JSON object — whether
`json.loads` raises, or returns a non-dict so that the `id` extraction
raises — produces exactly one `{id: null, success: false, error: <message>}`
response, and the surrounding stream is processed exactly as it would be on
its own, so the read loop survives and later lines are answered normally.
Both workers. -/
theorem claim1_malformed_line_isolated :
    (∀ (env : WhisperEnv) (pre post : List InLine) (l : InLine),
      pystrip l.raw ≠ "" →
      (∀ msg, l.parsed = .error msg →
        whisperStep env l = [failObj Json.null msg]
        ∧ whisperRun env (pre ++ l :: post) =
            whisperRun env pre ++ [failObj Json.null msg] ++ whisperRun env post)
      ∧ (∀ payload, l.parsed = .ok payload → payload.isObj = false →
        whisperStep env l = [failObj Json.null (attrErrMsg payload)]
        ∧ whisperRun env (pre ++ l :: post) =
            whisperRun env pre ++ [failObj Json.null (attrErrMsg payload)] ++
              whisperRun env post))
    ∧ (∀ (env : PiperEnv) (pre post : List InLine) (l : InLine),
      pystrip l.raw ≠ "" →
      (∀ msg, l.parsed = .error msg →
        piperStep env l = [failObj Json.null msg]
        ∧ piperRun env (pre ++ l :: post) =
            piperRun env pre ++ [failObj Json.null msg] ++ piperRun env post)
      ∧ (∀ payload, l.parsed = .ok payload → payload.isObj = false →
        piperStep env l = [failObj Json.null (attrErrMsg payload)]
        ∧ piperRun env (pre ++ l :: post) =
            piperRun env pre ++ [failObj Json.null (attrErrMsg payload)] ++
              piperRun env post)) := by
  constructor
  · intro env pre post l hs
    constructor
    · intro msg hp
      have h1 := whisperStep_parse_error env l msg hs hp
      exact ⟨h1, by rw [whisperRun_append_cons, h1]⟩
    · intro payload hp ho
      have h1 := whisperStep_not_dict env l payload hs hp ho
      exact ⟨h1, by rw [whisperRun_append_cons, h1]⟩
  · intro env pre post l hs
    constructor
    · intro msg hp
      have h1 := piperStep_parse_error env l msg hs hp
      exact ⟨h1, by rw [piperRun_append_cons, h1]⟩
    · intro payload hp ho
      have h1 := piperStep_not_dict env l payload hs hp ho
      exact ⟨h1, by rw [piperRun_append_cons, h1]⟩

/-- No response emitted by the serving loop carries an `event` key. -/
theorem whisperRun_no_event (env : WhisperEnv) (lines : List InLine) :
    ∀ r ∈ whisperRun env lines, jLookup r "event" = none := by
  intro r hr
  rw [whisperRun, List.mem_flatMap] at hr
  obtain ⟨l, _, hrl⟩ := hr
  rcases whisperStep_shape env l r hrl with ⟨rid, msg, h⟩ | ⟨rid, t, lg, c, s, d, h⟩
  · rw [h]; exact failObj_event _ _
  · rw [h]; exact whisperSuccessObj_event _ _ _ _ _ _

/-- No response emitted by the serving loop carries an `event` key. -/
theorem piperRun_no_event (env : PiperEnv) (lines : List InLine) :
    ∀ r ∈ piperRun env lines, jLookup r "event" = none := by
  intro r hr
  rw [piperRun, List.mem_flatMap] at hr
  obtain ⟨l, _, hrl⟩ := hr
  rcases piperStep_shape env l r hrl with ⟨rid, msg, h⟩ | ⟨rid, a, sr, d, h⟩
  · rw [h]; exact failObj_event _ _
  · rw [h]; exact piperSuccessObj_event _ _ _ _

/-- C2: if model loading raises, the worker emits exactly the one error
event — whatever stdin holds, no ready event and no response is emitted —
and exits with status 1; if loading succeeds, exactly one ready event is
emitted ahead of all responses (no response line carries an `event` key),
and the worker exits with status 0 after the stream ends.  Both workers. -/
theorem claim2_startup_events :
    (∀ (st : WhisperStartup) (env : WhisperEnv) (lines : List InLine),
      (∀ e, st.load_model (st.model_env.getD "small") (st.device_env.getD "cpu") =
          .error e →
        whisperMain st env lines = ([whisperLoadError st e], 1)
        ∧ jLookup (whisperLoadError st e) "event" = some (Json.str "error")
        ∧ jLookup (whisperLoadError st e) "success" = some (Json.bool false))
      ∧ (∀ u, st.load_model (st.model_env.getD "small") (st.device_env.getD "cpu") =
          .ok u →
        whisperMain st env lines = (whisperReady st :: whisperRun env lines, 0)
        ∧ jLookup (whisperReady st) "event" = some (Json.str "ready")
        ∧ jLookup (whisperReady st) "success" = some (Json.bool true)
        ∧ ∀ r ∈ whisperRun env lines, jLookup r "event" = none))
    ∧ (∀ (st : PiperStartup) (env : PiperEnv) (lines : List InLine),
      (∀ e, load_voice st = .error e →
        piperMain st env lines = ([piperLoadError e], 1)
        ∧ jLookup (piperLoadError e) "event" = some (Json.str "error")
        ∧ jLookup (piperLoadError e) "success" = some (Json.bool false))
      ∧ (∀ u, load_voice st = .ok u →
        piperMain st env lines = (piperReady st :: piperRun env lines, 0)
        ∧ jLookup (piperReady st) "event" = some (Json.str "ready")
        ∧ jLookup (piperReady st) "success" = some (Json.bool true)
        ∧ ∀ r ∈ piperRun env lines, jLookup r "event" = none)) := by
  constructor
  · intro st env lines
    constructor
    · intro e he
      rw [whisperMain, he]
      exact ⟨rfl, whisperLoadError_event st e, whisperLoadError_success st e⟩
    · intro u hu
      rw [whisperMain, hu]
      exact ⟨rfl, whisperReady_event st, whisperReady_success st,
        whisperRun_no_event env lines⟩
  · intro st env lines
    constructor
    · intro e he
      rw [piperMain, he]
      exact ⟨rfl, piperLoadError_event e, piperLoadError_success e⟩
    · intro u hu
      rw [piperMain, hu]
      exact ⟨rfl, piperReady_event st, piperReady_success st,
        piperRun_no_event env lines⟩

/-- C3: every emitted line whose `success` field is `false` — startup error
event or failure response — carries exactly the correlation field, the
`success` flag and the `error` string, and none of the result fields.  Both
workers. -/
theorem claim3_failure_lines_carry_only_error :
    (∀ (st : WhisperStartup) (env : WhisperEnv) (lines : List InLine),
      ∀ r ∈ (whisperMain st env lines).1,
        jLookup r "success" = some (Json.bool false) →
        jKeys r = ["id", "success", "error"] ∨ jKeys r = ["event", "success", "error"])
    ∧ (∀ (st : PiperStartup) (env : PiperEnv) (lines : List InLine),
      ∀ r ∈ (piperMain st env lines).1,
        jLookup r "success" = some (Json.bool false) →
        jKeys r = ["id", "success", "error"] ∨ jKeys r = ["event", "success", "error"]) := by
  constructor
  · intro st env lines r hr hfail
    rcases hl : st.load_model (st.model_env.getD "small") (st.device_env.getD "cpu")
      with e | u
    · rw [whisperMain, hl] at hr
      rw [List.mem_singleton] at hr
      subst hr
      exact Or.inr (whisperLoadError_keys st e)
    · rw [whisperMain, hl] at hr
      rw [List.mem_cons] at hr
      rcases hr with hr | hr
      · subst hr
        rw [whisperReady_success] at hfail
        simp at hfail
      · rw [whisperRun, List.mem_flatMap] at hr
        obtain ⟨l, _, hrl⟩ := hr
        rcases whisperStep_shape env l r hrl with ⟨rid, msg, h⟩ | ⟨rid, t, lg, c, s, d, h⟩
        · rw [h]; exact Or.inl (failObj_keys _ _)
        · rw [h, whisperSuccessObj_success] at hfail
          simp at hfail
  · intro st env lines r hr hfail
    rcases hl : load_voice st with e | u
    · rw [piperMain, hl] at hr
      rw [List.mem_singleton] at hr
      subst hr
      exact Or.inr (piperLoadError_keys e)
    · rw [piperMain, hl] at hr
      rw [List.mem_cons] at hr
      rcases hr with hr | hr
      · subst hr
        rw [piperReady_success] at hfail
        simp at hfail
      · rw [piperRun, List.mem_flatMap] at hr
        obtain ⟨l, _, hrl⟩ := hr
        rcases piperStep_shape env l r hrl with ⟨rid, msg, h⟩ | ⟨rid, a, sr, d, h⟩
        · rw [h]; exact Or.inl (failObj_keys _ _)
        · rw [h, piperSuccessObj_success] at hfail
          simp at hfail

/-- Every response to a line that parsed to a dict echoes the extracted id. -/
theorem whisperStep_id (env : WhisperEnv) (l : InLine) (payload : Json)
    (hs : pystrip l.raw ≠ "") (hp : l.parsed = .ok payload)
    (ho : payload.isObj = true) :
    ∀ r ∈ whisperStep env l, jLookup r "id" = some (jGetD payload "id") := by
  intro r hr
  rw [whisperStep, if_neg hs, hp] at hr
  dsimp only at hr
  rw [ho] at hr
  rw [if_neg (by simp)] at hr
  rcases hb : whisperBody env (jGetD payload "id") payload with e | resp
  · rw [hb] at hr
    rw [List.mem_singleton] at hr
    subst hr
    exact failObj_id _ _
  · rw [hb] at hr
    rw [List.mem_singleton] at hr
    subst hr
    rcases whisperBody_shape _ _ _ _ hb with ⟨msg, hm⟩ | ⟨t, lg, c, s, d, hm⟩
    · rw [hm]; exact failObj_id _ _
    · rw [hm]; exact whisperSuccessObj_id _ _ _ _ _ _

/-- Every response to a line that parsed to a dict echoes the extracted id. -/
theorem piperStep_id (env : PiperEnv) (l : InLine) (payload : Json)
    (hs : pystrip l.raw ≠ "") (hp : l.parsed = .ok payload)
    (ho : payload.isObj = true) :
    ∀ r ∈ piperStep env l, jLookup r "id" = some (jGetD payload "id") := by
  intro r hr
  rw [piperStep, if_neg hs, hp] at hr
  dsimp only at hr
  rw [ho] at hr
  rw [if_neg (by simp)] at hr
  rcases hb : piperBody env (jGetD payload "id") payload with e | resp
  · rw [hb] at hr
    rw [List.mem_singleton] at hr
    subst hr
    exact failObj_id _ _
  · rw [hb] at hr
    rw [List.mem_singleton] at hr
    subst hr
    rcases piperBody_shape _ _ _ _ hb with ⟨msg, hm⟩ | ⟨a, sr, d, hm⟩
    · rw [hm]; exact failObj_id _ _
    · rw [hm]; exact piperSuccessObj_id _ _ _ _

/-- C4 (amended): every response to a line that parses as a JSON object —
validation failure, handler exception or success — carries the request
`id` value unchanged; a request without an `id` key is answered with
`id: null` (the response always contains the `id` key, so the absence is
normalized to `null` rather than reproduced).  Both workers. -/
theorem claim4_amended_id_echo :
    (∀ (env : WhisperEnv) (l : InLine) (kvs : List (String × Json)),
      pystrip l.raw ≠ "" → l.parsed = .ok (Json.obj kvs) →
      ∀ r ∈ whisperStep env l,
        jLookup r "id" = some (jGetD (Json.obj kvs) "id")
        ∧ (lookupKV kvs "id" = none → jLookup r "id" = some Json.null))
    ∧ (∀ (env : PiperEnv) (l : InLine) (kvs : List (String × Json)),
      pystrip l.raw ≠ "" → l.parsed = .ok (Json.obj kvs) →
      ∀ r ∈ piperStep env l,
        jLookup r "id" = some (jGetD (Json.obj kvs) "id")
        ∧ (lookupKV kvs "id" = none → jLookup r "id" = some Json.null)) := by
  constructor
  · intro env l kvs hs hp r hr
    have h1 := whisperStep_id env l (Json.obj kvs) hs hp rfl r hr
    refine ⟨h1, fun hnone => ?_⟩
    rw [h1, jGetD, jGetDefault, jLookup, hnone]
    rfl
  · intro env l kvs hs hp r hr
    have h1 := piperStep_id env l (Json.obj kvs) hs hp rfl r hr
    refine ⟨h1, fun hnone => ?_⟩
    rw [h1, jGetD, jGetDefault, jLookup, hnone]
    rfl

/-- C10: a line that strips to empty is skipped without emitting anything;
every line that strips to non-empty produces exactly one response line.
Both workers. -/
theorem claim10_blank_lines_silent :
    (∀ (env : WhisperEnv) (l : InLine),
      (pystrip l.raw = "" → whisperStep env l = [])
      ∧ (pystrip l.raw ≠ "" → (whisperStep env l).length = 1))
    ∧ (∀ (env : PiperEnv) (l : InLine),
      (pystrip l.raw = "" → piperStep env l = [])
      ∧ (pystrip l.raw ≠ "" → (piperStep env l).length = 1)) := by
  constructor
  · intro env l
    constructor
    · intro hs
      rw [whisperStep, if_pos hs]
    · intro hs
      rw [whisperStep, if_neg hs]
      cases hp : l.parsed with
      | error msg => rfl
      | ok payload =>
        dsimp only
        by_cases ho : payload.isObj = false
        · rw [if_pos ho]
          rfl
        · rw [if_neg ho]
          rcases hb : whisperBody env (jGetD payload "id") payload with e | resp <;>
            simp [hb]
  · intro env l
    constructor
    · intro hs
      rw [piperStep, if_pos hs]
    · intro hs
      rw [piperStep, if_neg hs]
      cases hp : l.parsed with
      | error msg => rfl
      | ok payload =>
        dsimp only
        by_cases ho : payload.isObj = false
        · rw [if_pos ho]
          rfl
        · rw [if_neg ho]
          rcases hb : piperBody env (jGetD payload "id") payload with e | resp <;>
            simp [hb]

/-!
## Concrete fixtures

Small concrete environments and lines used to instantiate the theorems.
-/

/-- A whisper environment whose external calls all raise. -/
def testWhisperEnv : WhisperEnv where
  pexp := fun _ => 1
  b64decode := fun _ => .error "Invalid base64-encoded string"
  openWav := fun _ => .error "file does not start with RIFF id"
  transcribe := fun _ _ => .error "model failure"
  transcribe_ms := 7

/-- A piper environment whose synthesis calls all raise. -/
def testPiperEnv : PiperEnv where
  pyfloat := fun _ => none
  synthesize_wav := fun _ _ _ => .error "synthesis failure"
  get_sample_rate := fun _ => .error "file does not start with RIFF id"
  b64encode := fun _ => "UklGRg=="
  synth_ms := 5

/-- A whisper startup whose model load raises. -/
def testWhisperStartupFail : WhisperStartup where
  model_env := some "tiny"
  device_env := none
  load_model := fun _ _ => .error "no such model"
  startup_ms := 12

/-- A piper startup whose voice load succeeds. -/
def testPiperStartupOk : PiperStartup where
  model_path := some "voice.onnx"
  config_path := none
  use_cuda_env := none
  loadVoice := fun _ _ _ => .ok ()
  startup_ms := 3

/-- A line of only whitespace. -/
def blankLine : InLine := ⟨"   ", .error "Expecting value: line 1 column 1 (char 0)"⟩

/-- A line that is not valid JSON. -/
def badLine : InLine := ⟨"not json", .error "Expecting value: line 1 column 1 (char 0)"⟩

/-- A valid JSON object line carrying an id and an unsupported command. -/
def cmdLine : InLine :=
  ⟨"payload", .ok (Json.obj [("id", Json.str "r1"), ("command", Json.str "nope")])⟩

/-- A valid JSON object line carrying no `id` key. -/
def noIdLine : InLine := ⟨"payload", .ok (Json.obj [("command", Json.str "zzz")])⟩

/-- C4, counterexample to "absence echoed verbatim": a request without any
`id` field is answered with a response that does contain an `id` key
(value `null`) — the absence is not reproduced. -/
theorem claim4_counterexample_absent_id_becomes_null :
    whisperStep testWhisperEnv noIdLine =
      [Json.obj [("id", Json.null), ("success", Json.bool false),
        ("error", Json.str "Unsupported command: zzz")]]
    ∧ lookupKV [("command", Json.str "zzz")] "id" = none
    ∧ "id" ∈ jKeys (Json.obj [("id", Json.null), ("success", Json.bool false),
        ("error", Json.str "Unsupported command: zzz")]) := by
  refine ⟨?_, rfl, by decide⟩
  rfl

/-- Witness for C1 at a concrete malformed line followed by a valid line. -/
theorem claim1_witness :
    whisperStep testWhisperEnv badLine =
      [failObj Json.null "Expecting value: line 1 column 1 (char 0)"]
    ∧ whisperRun testWhisperEnv ([] ++ badLine :: [cmdLine]) =
        whisperRun testWhisperEnv [] ++
          [failObj Json.null "Expecting value: line 1 column 1 (char 0)"] ++
          whisperRun testWhisperEnv [cmdLine] :=
  ((claim1_malformed_line_isolated.1 testWhisperEnv [] [cmdLine] badLine
    (by decide)).1 "Expecting value: line 1 column 1 (char 0)" rfl)

/-- Witness for C2 at a concrete failing startup. -/
theorem claim2_witness :
    whisperMain testWhisperStartupFail testWhisperEnv [cmdLine] =
      ([whisperLoadError testWhisperStartupFail "no such model"], 1)
    ∧ jLookup (whisperLoadError testWhisperStartupFail "no such model") "event" =
        some (Json.str "error")
    ∧ jLookup (whisperLoadError testWhisperStartupFail "no such model") "success" =
        some (Json.bool false) :=
  (claim2_startup_events.1 testWhisperStartupFail testWhisperEnv [cmdLine]).1
    "no such model" rfl

/-- Witness for C3 at the concrete startup-failure event. -/
theorem claim3_witness :
    jKeys (whisperLoadError testWhisperStartupFail "no such model") =
      ["id", "success", "error"]
    ∨ jKeys (whisperLoadError testWhisperStartupFail "no such model") =
      ["event", "success", "error"] :=
  claim3_failure_lines_carry_only_error.1 testWhisperStartupFail testWhisperEnv []
    (whisperLoadError testWhisperStartupFail "no such model")
    (by rw [show whisperMain testWhisperStartupFail testWhisperEnv [] =
        ([whisperLoadError testWhisperStartupFail "no such model"], 1) from rfl]
        exact List.mem_singleton.mpr rfl)
    (whisperLoadError_success testWhisperStartupFail "no such model")

/-- Witness for the amended C4 at a concrete request with an id. -/
theorem claim4_amended_witness :
    jLookup (failObj (Json.str "r1") "Unsupported command: nope") "id" =
      some (jGetD (Json.obj [("id", Json.str "r1"), ("command", Json.str "nope")]) "id")
    ∧ (lookupKV [("id", Json.str "r1"), ("command", Json.str "nope")] "id" = none →
      jLookup (failObj (Json.str "r1") "Unsupported command: nope") "id" =
        some Json.null) :=
  claim4_amended_id_echo.1 testWhisperEnv cmdLine
    [("id", Json.str "r1"), ("command", Json.str "nope")] (by decide) rfl
    (failObj (Json.str "r1") "Unsupported command: nope")
    (by rw [show whisperStep testWhisperEnv cmdLine =
        [failObj (Json.str "r1") "Unsupported command: nope"] from rfl]
        exact List.mem_singleton.mpr rfl)

/-- Witness for C5 at a concrete 8-bit mono header and a concrete
unsupported width. -/
theorem claim5_witness :
    wav_bytes_to_float32 ⟨44100, 1, 1, [0, 128, 255]⟩ =
      .ok (([0, 128, 255] : List ℕ).map (fun b : ℕ => ((b : ℚ) - 128) / 128), 44100)
    ∧ wav_bytes_to_float32 ⟨8000, 1, 3, []⟩ =
      .error ("Unsupported WAV sample width: " ++
        toString (WavHeader.mk 8000 1 3 []).sampleWidth) :=
  ⟨(claim5_wav_decode ⟨44100, 1, 1, [0, 128, 255]⟩).2.2.1 (by decide) rfl,
    (claim5_wav_decode ⟨8000, 1, 3, []⟩).1 (by decide) (by decide) (by decide)⟩

/-- Witness for C6 at concrete buffers and rates. -/
theorem claim6_witness :
    resample_linear [1/2, 1/3] 8000 8000 = [1/2, 1/3]
    ∧ resample_linear [] 8000 16000 = [] :=
  ⟨claim6_resample_identity.1 [1/2, 1/3] 8000 8000 (Or.inl rfl),
    claim6_resample_identity.2 8000 16000⟩

/-- Witness for C7 at a concrete buffer and rate pair. -/
theorem claim7_witness :
    (resample_linear [1, 2, 3] 16000 8000).length ≤
      (resample_linear [1, 2, 3] 16000 24000).length :=
  claim7_resample_length_monotone [1, 2, 3] 16000 8000 24000 (by decide)
    (by decide) (by decide) (by decide) (by decide)

/-- A concrete segment with perfect log-probability and no no-speech mass. -/
def certainSeg : Seg := ⟨some 5, some 2, some "hi", none, some 0, some 0⟩

/-- A concrete segment with full no-speech mass. -/
def silentSeg : Seg := ⟨some 0, some 1, some "uh", none, some (-1/2), some 1⟩

/-- Witness for C8 at the two concrete extreme segments. -/
theorem claim8_witness :
    (segment_confidence (fun _ => 1) certainSeg = 1
      ∧ aggregate_confidence [normalizeSegment (fun _ => 1) certainSeg] (3/4) = 1)
    ∧ (segment_confidence (fun _ => 1) silentSeg = 0
      ∧ aggregate_confidence [normalizeSegment (fun _ => 1) silentSeg] (3/4) = 0) :=
  ⟨(claim8_single_segment_extremes (fun _ => 1) certainSeg (3/4) rfl).1 rfl rfl,
    (claim8_single_segment_extremes (fun _ => 1) silentSeg (3/4) rfl).2 rfl⟩

/-- Witness for C9 at a concrete singleton segment list. -/
theorem claim9_witness :
    0 < ([certainSeg].foldl (aggStep (1/2)) (0, 0)).2
    ∧ aggregate_confidence [certainSeg] (1/2) =
        clamp (([certainSeg].foldl (aggStep (1/2)) (0, 0)).1 /
          ([certainSeg].foldl (aggStep (1/2)) (0, 0)).2) 0 1
    ∧ 0 ≤ aggregate_confidence [certainSeg] (1/2)
    ∧ aggregate_confidence [certainSeg] (1/2) ≤ 1 :=
  (claim9_aggregate_weight_safety [certainSeg] (1/2) (List.cons_ne_nil _ _)).2

/-- Witness for C10 at a concrete blank line and a concrete non-blank line. -/
theorem claim10_witness :
    whisperStep testWhisperEnv blankLine = []
    ∧ (piperStep testPiperEnv cmdLine).length = 1 :=
  ⟨(claim10_blank_lines_silent.1 testWhisperEnv blankLine).1 (by decide),
    (claim10_blank_lines_silent.2 testPiperEnv cmdLine).2 (by decide)⟩

end OrthoAI
